import Mathlib

/-
Shallow embedding of the `infomed-interoperabilidad` client.

The Python modules are translated as follows:
* `patient.py` / `coverage.py` — the pure resource builders become Lean
  functions over records whose optional sub-structures are `Option` fields
  (an absent FHIR element is `none`).
* `base.py` — every HTTP gateway function becomes a function of an abstract
  response value (status code plus payload); the network itself is out of
  scope, only the status-code branching and per-entry parsing logic of the
  source is modelled.
* `workflow.py` — interactive prompts become functions consuming a finite
  script of operator inputs (`List String`); a prompt that would keep asking
  after the script is exhausted yields `none`.  The two reconciliation
  workflows become functions of a gateway environment and an input script,
  returning the final outcome together with the ordered trace of gateway
  calls they issued.

Python string truthiness (`if s:`) is modelled by `truthyS`; Python list
indexing `xs[0]`, which raises `IndexError` on an empty list, is modelled by
`List.head?` with the `none` case mapped to an explicit error outcome.
-/

namespace Infomed

/-- Python truthiness of an optional string: `None` and `""` are falsy. -/
def truthyS : Option String → Bool
  | none => false
  | some s => if s = "" then false else true

/-- Python `str.strip()`: drop leading and trailing whitespace. -/
def pyStrip (s : String) : String :=
  String.mk
    (((s.data.dropWhile Char.isWhitespace).reverse.dropWhile
        Char.isWhitespace).reverse)

/-- Python `str.lower()` (over the ASCII range the prompts compare). -/
def pyLower (s : String) : String :=
  String.mk (s.data.map Char.toLower)

/-- Python `str.upper()` (over the ASCII range the prompts compare). -/
def pyUpper (s : String) : String :=
  String.mk (s.data.map Char.toUpper)

/-- Python `str.isdigit()`: nonempty and all digits. -/
def pyIsdigit (s : String) : Bool :=
  !s.data.isEmpty && s.data.all Char.isDigit

/-- Python `str.split(sep)` for a one-character separator, over the
character list. -/
def splitChars (sep : Char) : List Char → List (List Char)
  | [] => [[]]
  | c :: cs =>
    let r := splitChars sep cs
    if c = sep then [] :: r
    else match r with
      | [] => [[c]]
      | h :: t => (c :: h) :: t

/-- The numeric value of a digit string (characters assumed digits). -/
def charsToNat (l : List Char) : Nat :=
  l.foldl (fun a c => a * 10 + (c.toNat - '0'.toNat)) 0

/-- FHIR HumanName element (the fields `patient.py` touches). -/
structure HumanName where
  family : Option String
  given : List String
deriving DecidableEq, Repr

/-- FHIR ContactPoint element (the fields `patient.py` touches). -/
structure ContactPoint where
  system : Option String
  value : Option String
  use : Option String
deriving DecidableEq, Repr

/-- FHIR Identifier element (the fields the workflow and builders touch). -/
structure Identifier where
  system : Option String
  value : Option String
deriving DecidableEq, Repr

/-- FHIR Coding element. -/
structure Coding where
  system : Option String
  code : Option String
  display : Option String
deriving DecidableEq, Repr

/-- FHIR CodeableConcept element. -/
structure CodeableConcept where
  coding : List Coding
deriving DecidableEq, Repr

/-- FHIR Reference element. -/
structure Reference where
  reference : Option String
deriving DecidableEq, Repr

/-- FHIR Period element. -/
structure Period where
  start : Option String
  «end» : Option String
deriving DecidableEq, Repr

/-- Patient resource: the fields used by `patient.py` and `workflow.py`.
Every element is optional (a fresh `Patient()` has none of them). -/
structure PatientR where
  id : Option String
  identifier : Option (List Identifier)
  name : Option (List HumanName)
  birthDate : Option String
  gender : Option String
  telecom : Option (List ContactPoint)
deriving DecidableEq, Repr

/-- The empty `Patient()` value. -/
def emptyPatient : PatientR :=
  { id := none, identifier := none, name := none, birthDate := none,
    gender := none, telecom := none }

/-- Coverage resource: the fields used by `coverage.py` and `workflow.py`. -/
structure CoverageR where
  id : Option String
  status : String
  kind : String
  type : Option CodeableConcept
  beneficiary : Reference
  identifier : Option (List Identifier)
  subscriberId : Option (List String)
  period : Option Period
deriving DecidableEq, Repr

/-- `patient.py::create_patient_resource`.  The source builds a `HumanName`
from the name fields but never assigns it to `patient.name`; the local
`name` value below is likewise built and left unused, so the returned
patient never carries a name. -/
def create_patient_resource (family_name given_name birth_date gender phone :
    Option String) : PatientR :=
  let patient := emptyPatient
  let name : Option HumanName :=
    if truthyS family_name || truthyS given_name then
      some { family := if truthyS family_name then family_name else none,
             given := match given_name with
               | some g => if g = "" then [] else [g]
               | none => [] }
    else none
  let patient := if truthyS birth_date
    then { patient with birthDate := birth_date } else patient
  let patient := if truthyS gender
    then { patient with gender := gender } else patient
  let contact : ContactPoint :=
    { system := some "phone", value := phone, use := some "mobile" }
  let patient := if truthyS phone
    then { patient with telecom := some [contact] } else patient
  -- `name` is dropped here exactly as the source drops it
  let _ := name
  patient

/-- `coverage.py::create_coverage_resource`. -/
def create_coverage_resource (coverage_type beneficiary_resource_type
    beneficiary_resource_id status : String)
    (policy_identifier coverage_type_display subscriber_id start_date
     end_date : Option String) : CoverageR :=
  let coding : Coding :=
    { system := some "http://terminology.hl7.org/CodeSystem/v3-ActCode",
      code := some coverage_type,
      display := if truthyS coverage_type_display
        then coverage_type_display else none }
  let type_concept : CodeableConcept := { coding := [coding] }
  let beneficiary_ref : Reference :=
    { reference :=
        some (beneficiary_resource_type ++ "/" ++ beneficiary_resource_id) }
  let coverage : CoverageR :=
    { id := none, status := status, kind := "insurance",
      type := some type_concept, beneficiary := beneficiary_ref,
      identifier := none, subscriberId := none, period := none }
  let policy_id_element : Identifier :=
    { system := some "http://example.org/policy-numbers",
      value := policy_identifier }
  let coverage := if truthyS policy_identifier
    then { coverage with identifier := some [policy_id_element] }
    else coverage
  let coverage := match subscriber_id with
    | some sid => if sid = "" then coverage
        else { coverage with subscriberId := some [sid] }
    | none => coverage
  let validity_period : Period :=
    { start := if truthyS start_date then start_date else none,
      «end» := if truthyS end_date then end_date else none }
  let coverage := if truthyS start_date || truthyS end_date
    then { coverage with period := some validity_period }
    else coverage
  coverage

/-- The formal parameter names of `create_coverage_resource` in
`coverage.py` (the builder declares no `kind` parameter). -/
def create_coverage_resource_params : List String :=
  ["coverage_type", "beneficiary_resource_type", "beneficiary_resource_id",
   "status", "policy_identifier", "coverage_type_display", "subscriber_id",
   "start_date", "end_date"]

/-- The keyword-argument names `workflow.py::add_or_edit_patient_coverages`
passes in its call to `create_coverage_resource` (it passes `kind`). -/
def add_or_edit_coverage_call_kwargs : List String :=
  ["beneficiary_resource_type", "beneficiary_resource_id", "coverage_type",
   "status", "kind", "policy_identifier", "coverage_type_display",
   "subscriber_id", "start_date", "end_date"]

/-- Python keyword-call binding: a call binds only when every keyword
argument names a declared parameter; otherwise it raises `TypeError`. -/
def kwargsAccepted (params kwargs : List String) : Bool :=
  kwargs.all (fun k => params.contains k)

/-- An HTTP response to a single-resource request: status code plus the
JSON body modelled as a flat key-value mapping (the workflow only ever
iterates the top-level items of such a body). -/
structure HttpResponse where
  status : Nat
  body : List (String × String)
deriving DecidableEq, Repr

/-- A raw search-bundle entry (`entry[i].resource`): the JSON object before
schema validation, carrying the elements the parsing model inspects. -/
structure RawResource where
  id : Option String
  kind : Option String
  status : Option String
  beneficiary : Option String
deriving DecidableEq, Repr

/-- An HTTP response to a search request: status code plus the `entry`
array of raw resources. -/
structure SearchResponse where
  status : Nat
  entries : List RawResource
deriving DecidableEq, Repr

/-- Modelled from the spec: the external schema library's
`Patient.model_validate`.  FHIR declares no required element on Patient, so
validation of a raw entry always succeeds, carrying over the fields the
workflow uses. -/
def patient_model_validate (r : RawResource) : PatientR :=
  { emptyPatient with id := r.id }

/-- Modelled from the spec: the external schema library's
`Coverage.model_validate`.  Validation succeeds exactly when the required
Coverage elements (`status`, `kind`, `beneficiary`) are all present. -/
def coverage_model_validate (r : RawResource) : Option CoverageR :=
  match r.status, r.kind, r.beneficiary with
  | some s, some k, some b =>
      some { id := r.id, status := s, kind := k, type := none,
             beneficiary := { reference := some b }, identifier := none,
             subscriberId := none, period := none }
  | _, _, _ => none

/-- `base.py::send_resource_to_hapi_fhir`: POST; on status 201 return the
`id` field of the response body, otherwise report failure (`none`). -/
def send_resource_to_hapi_fhir (response : HttpResponse) : Option String :=
  if response.status = 201 then response.body.lookup "id" else none

/-- `base.py::edit_resource_in_hapi_fhir`: PUT; `true` exactly on
status 200. -/
def edit_resource_in_hapi_fhir (response : HttpResponse) : Bool :=
  response.status = 200

/-- `base.py::get_resource_from_hapi_fhir`: GET by id; on status 200 return
the body, otherwise an empty mapping (never an error). -/
def get_resource_from_hapi_fhir (response : HttpResponse) :
    List (String × String) :=
  if response.status = 200 then response.body else []

/-- `base.py::get_resource_by_identifier`, modelled at resource type
Patient — the only type the workflow passes, and Patient validation never
fails (`patient_model_validate`).  On status 200 each bundle entry is
validated; any other status yields the empty list. -/
def get_resource_by_identifier (response : SearchResponse) : List PatientR :=
  if response.status = 200 then
    response.entries.map patient_model_validate
  else []

/-- The per-entry body of the loop in
`base.py::get_coverage_by_beneficiary`: default a missing `kind` to
`"insurance"`, then validate; a validation failure is caught and the entry
skipped (`none`). -/
def process_coverage_entry (entry : RawResource) : Option CoverageR :=
  let resource := if entry.kind.isNone
    then { entry with kind := some "insurance" } else entry
  coverage_model_validate resource

/-- `base.py::get_coverage_by_beneficiary`: search Coverage by beneficiary;
on status 200 validate each entry with the `kind` default, skipping entries
that fail; any other status yields the empty list. -/
def get_coverage_by_beneficiary (response : SearchResponse) :
    List CoverageR :=
  if response.status = 200 then
    response.entries.filterMap process_coverage_entry
  else []

/-- `base.py::delete_resource_from_hapi_fhir`: DELETE; `true` exactly on
status 200. -/
def delete_resource_from_hapi_fhir (response : HttpResponse) : Bool :=
  response.status = 200

/-- The DNI format check of `workflow.py::input_dni`:
`7 <= len(dni) <= 8 and dni.isdigit()`. -/
def valid_dni (s : String) : Bool :=
  decide (7 ≤ s.length) && decide (s.length ≤ 8) && pyIsdigit s

/-- `workflow.py::input_dni`: keep prompting until a valid DNI is entered.
A prompt reads from a finite script of operator inputs; `none` means the
script was exhausted while the prompt was still asking. -/
def input_dni : List String → Option (String × List String)
  | [] => none
  | s :: rest => if valid_dni s then some (s, rest) else input_dni rest

/-- A nonempty all-digit character list. -/
def all_digits (l : List Char) : Bool :=
  !l.isEmpty && l.all Char.isDigit

/-- Day count of a month, with the Gregorian leap rule
(`datetime`'s calendar). -/
def days_in_month (y m : Nat) : Nat :=
  if m = 2 then
    (if y % 4 = 0 && (decide (y % 100 ≠ 0) || y % 400 = 0) then 29 else 28)
  else if m = 4 || m = 6 || m = 9 || m = 11 then 30
  else 31

/-- The date format check of `workflow.py::input_date`:
`datetime.strptime(s, "%Y-%m-%d")` succeeds.  `%Y` consumes one to four
digits, `%m` and `%d` one or two; the month, day and year must denote a real
calendar date (year at least 1). -/
def is_valid_date (s : String) : Bool :=
  match splitChars '-' s.data with
  | [ys, ms, ds] =>
    all_digits ys && decide (ys.length ≤ 4) &&
    all_digits ms && decide (ms.length ≤ 2) &&
    all_digits ds && decide (ds.length ≤ 2) &&
    (let y := charsToNat ys
     let m := charsToNat ms
     let d := charsToNat ds
     decide (1 ≤ y) && decide (1 ≤ m) && decide (m ≤ 12) &&
     decide (1 ≤ d) && decide (d ≤ days_in_month y m))
  | _ => false

/-- `workflow.py::input_date`: empty input skips the field; a valid date is
accepted; anything else re-prompts. -/
def input_date : List String → Option (Option String × List String)
  | [] => none
  | s :: rest =>
    let date_input := pyStrip s
    if date_input = "" then some (none, rest)
    else if is_valid_date date_input then some (some date_input, rest)
    else input_date rest

/-- `workflow.py::input_gender`: `M`/`F` (case-insensitive, trimmed) map to
the FHIR codes, empty input skips, anything else re-prompts. -/
def input_gender : List String → Option (Option String × List String)
  | [] => none
  | s :: rest =>
    let gender_input := pyUpper (pyStrip s)
    if gender_input = "M" then some (some "male", rest)
    else if gender_input = "F" then some (some "female", rest)
    else if gender_input = "" then some (none, rest)
    else input_gender rest

/-- `workflow.py::input_policy_identifier`: a single read; empty input means
no policy identifier. -/
def input_policy_identifier : List String → Option (Option String × List String)
  | [] => none
  | s :: rest =>
    let policy_input := pyStrip s
    some ((if policy_input = "" then none else some policy_input), rest)

/-- `workflow.py::input_coverage_type`: re-prompt until one of the options
`1`–`3` is chosen; returns the (code, display) pair of the chosen option. -/
def input_coverage_type : List String → Option ((String × String) × List String)
  | [] => none
  | s :: rest =>
    let choice := pyStrip s
    if choice = "1" then some (("EHCPOL", "Extended healthcare policy"), rest)
    else if choice = "2" then
      some (("PUBLICPOL", "Public healthcare policy"), rest)
    else if choice = "3" then some (("DENTPRG", "Dental program"), rest)
    else input_coverage_type rest

/-- The phone format check of `workflow.py::input_phone`: the regular
expression `^\+?[1-9]\d{1,14}$` — an optional `+`, a leading digit `1`–`9`,
then one to fourteen further digits. -/
def phone_pattern_match (s : String) : Bool :=
  let core := match s.data with
    | c :: rest => if c = '+' then rest else s.data
    | [] => []
  match core with
  | [] => false
  | c :: cs =>
    c.isDigit && decide (c ≠ '0') &&
    decide (1 ≤ cs.length) && decide (cs.length ≤ 14) &&
    cs.all Char.isDigit

/-- `workflow.py::input_phone`: a single read; empty input skips the field,
a matching phone is returned, and a non-matching one prints a warning and is
also treated as omitted — the prompt never re-asks. -/
def input_phone : List String → Option (Option String × List String)
  | [] => none
  | s :: rest =>
    let phone_input := pyStrip s
    if phone_input = "" then some (none, rest)
    else if phone_pattern_match phone_input then some (some phone_input, rest)
    else some (none, rest)

/-- `workflow.py::input_subscriber_id`: a single read; empty input means no
subscriber id. -/
def input_subscriber_id : List String → Option (Option String × List String)
  | [] => none
  | s :: rest =>
    let subscriber_input := pyStrip s
    some ((if subscriber_input = "" then none else some subscriber_input), rest)

/-- `workflow.py::input_non_void`: re-prompt until a non-empty (trimmed)
string is entered. -/
def input_non_void : List String → Option (String × List String)
  | [] => none
  | s :: rest =>
    let value := pyStrip s
    if value = "" then input_non_void rest else some (value, rest)

/-- `workflow.py::input_coverage_status`: re-prompt until one of the options
`1`–`4` is chosen; returns the corresponding status code. -/
def input_coverage_status : List String → Option (String × List String)
  | [] => none
  | s :: rest =>
    let choice := pyStrip s
    if choice = "1" then some ("active", rest)
    else if choice = "2" then some ("cancelled", rest)
    else if choice = "3" then some ("draft", rest)
    else if choice = "4" then some ("entered-in-error", rest)
    else input_coverage_status rest

/-- A Repository Gateway call issued by `create_or_edit_patient`, recorded
in the order the workflow issues it. -/
inductive PatCall where
  | fetchByIdentifier (ident rtype : String)
  | create (p : PatientR)
  | update (p : PatientR)
  | fetchById (id rtype : String)
deriving DecidableEq, Repr

/-- Whether a patient-workflow gateway call mutates server state. -/
def PatCall.isMutation : PatCall → Bool
  | .create _ => true
  | .update _ => true
  | _ => false

/-- Whether a patient-workflow gateway call is a `create`. -/
def PatCall.isCreate : PatCall → Bool
  | .create _ => true
  | _ => false

/-- Final outcome of one run of `create_or_edit_patient`. -/
inductive PatOutcome where
  | cancelled
  | indexError
  | missingId
  | edited (details : List (String × String))
  | editFailed
  | created (details : List (String × String))
  | createFailed
deriving DecidableEq, Repr

/-- The Repository Gateway as seen by the patient workflow: the results the
server gives back for each kind of call. -/
structure PatEnv where
  fetchByIdentifier : String → List PatientR
  create : PatientR → Option String
  edit : PatientR → Bool
  fetchById : String → List (String × String)

/-- `workflow.py::create_or_edit_patient`, over a gateway environment and a
finite operator-input script.  Returns the outcome and the ordered trace of
gateway calls; `none` means the script ran out at some prompt.  The
unconditional access `existing_resources[0].id` of line 154 is the
`List.head?` match: on an empty lookup result it takes the `none` arm,
i.e. the Python `IndexError`. -/
def create_or_edit_patient (env : PatEnv) (stdin : List String) :
    Option (PatOutcome × List PatCall) :=
  match input_dni stdin with
  | none => none
  | some (patient_dni, s1) =>
  let existing_resources := env.fetchByIdentifier patient_dni
  let calls0 := [PatCall.fetchByIdentifier patient_dni "Patient"]
  -- the confirmation gate runs only when a matching patient exists
  let gate : Option (Bool × List String) :=
    if existing_resources.isEmpty then some (true, s1)
    else match s1 with
      | [] => none
      | c :: rest =>
        if pyLower (pyStrip c) = "s" then some (true, rest) else some (false, rest)
  match gate with
  | none => none
  | some (false, _) => some (.cancelled, calls0)
  | some (true, s2) =>
  match existing_resources.head? with
  | none => some (.indexError, calls0)
  | some first =>
  if first.id.isNone then some (.missingId, calls0)
  else
  match input_non_void s2 with
  | none => none
  | some (family_name, s3) =>
  match input_non_void s3 with
  | none => none
  | some (given_name, s4) =>
  match input_gender s4 with
  | none => none
  | some (gender, s5) =>
  match input_date s5 with
  | none => none
  | some (birth_date, s6) =>
  match input_phone s6 with
  | none => none
  | some (phone, _s7) =>
  let patient_resource :=
    create_patient_resource (some family_name) (some given_name)
      birth_date gender phone
  let dni_identifier : Identifier :=
    { system := some "http://www.renaper.gob.ar/dni", value := some patient_dni }
  let patient_resource := { patient_resource with identifier := some [dni_identifier] }
  if existing_resources.isEmpty then
    -- create branch (lines 188–197), reachable only on an empty lookup
    match env.create patient_resource with
    | none => some (.createFailed, calls0 ++ [PatCall.create patient_resource])
    | some created_id =>
      some (.created (env.fetchById created_id),
        calls0 ++ [PatCall.create patient_resource,
                   PatCall.fetchById created_id "Patient"])
  else
    let fid := first.id.getD ""
    let patient_resource := { patient_resource with id := first.id }
    if env.edit patient_resource then
      some (.edited (env.fetchById fid),
        calls0 ++ [PatCall.update patient_resource,
                   PatCall.fetchById fid "Patient"])
    else some (.editFailed, calls0 ++ [PatCall.update patient_resource])

/-- A Repository Gateway call issued by `add_or_edit_patient_coverages`. -/
inductive CovCall where
  | fetchByIdentifier (ident rtype : String)
  | fetchByBeneficiary (btype bid : String)
  | delete (id rtype : String)
  | create (c : CoverageR)
  | update (c : CoverageR)
  | fetchById (id rtype : String)
deriving DecidableEq, Repr

/-- Whether a coverage-workflow gateway call mutates server state. -/
def CovCall.isMutation : CovCall → Bool
  | .delete _ _ => true
  | .create _ => true
  | .update _ => true
  | _ => false

/-- Whether a coverage-workflow gateway call is a `create` or `update`. -/
def CovCall.isUpsert : CovCall → Bool
  | .create _ => true
  | .update _ => true
  | _ => false

/-- Final outcome of one run of `add_or_edit_patient_coverages`. -/
inductive CovOutcome where
  | patientNotFound
  | missingPatientId
  | deleted
  | deleteFailed
  | typeError
  | edited (details : List (String × String))
  | editFailed
  | created (details : List (String × String))
  | createFailed
deriving DecidableEq, Repr

/-- The Repository Gateway as seen by the coverage workflow. -/
structure CovEnv where
  fetchByIdentifier : String → List PatientR
  fetchByBeneficiary : String → List CoverageR
  deleteRes : String → Bool
  create : CoverageR → Option String
  edit : CoverageR → Bool
  fetchById : String → List (String × String)

/-- The selection loop of `add_or_edit_patient_coverages` (lines 273–284):
re-prompt until the entered option is one of `1`…`n` (returning that
coverage's id, which may itself be `None`) or empty (create-new mode). -/
def input_coverage_choice (options : List (Option String)) :
    List String → Option (Option String × List String)
  | [] => none
  | s :: rest =>
    let choice := pyStrip s
    match (List.range options.length).find? (fun i => toString (i + 1) = choice) with
    | some i => some (options.getD i none, rest)
    | none =>
      if choice = "" then some (none, rest)
      else input_coverage_choice options rest

/-- The tail of `add_or_edit_patient_coverages` (lines 294–336): collect the
coverage fields, then invoke the builder.  The source's call passes the
keyword argument `kind`, which `create_coverage_resource` does not declare,
so in Python the call raises `TypeError`; this is the `kwargsAccepted`
guard, whose failure yields the `typeError` outcome before any resource is
built or persisted.  The branch under the guard is what would run had the
call bound. -/
def coverage_fields_and_persist (env : CovEnv) (patient_id : String)
    (edited_coverage_id : Option String) (calls : List CovCall)
    (stdin : List String) : Option (CovOutcome × List CovCall) :=
  match input_coverage_type stdin with
  | none => none
  | some ((coverage_type, coverage_type_display), s1) =>
  match input_coverage_status s1 with
  | none => none
  | some (coverage_status, s2) =>
  match input_policy_identifier s2 with
  | none => none
  | some (policy_identifier, s3) =>
  match input_subscriber_id s3 with
  | none => none
  | some (subscriber_id, s4) =>
  match input_date s4 with
  | none => none
  | some (start_date, s5) =>
  match input_date s5 with
  | none => none
  | some (end_date, _s6) =>
  if kwargsAccepted create_coverage_resource_params
      add_or_edit_coverage_call_kwargs then
    let coverage_resource :=
      create_coverage_resource coverage_type "Patient" patient_id
        coverage_status policy_identifier (some coverage_type_display)
        subscriber_id start_date end_date
    if truthyS edited_coverage_id then
      let cid := edited_coverage_id.getD ""
      let coverage_resource := { coverage_resource with id := edited_coverage_id }
      if env.edit coverage_resource then
        some (.edited (env.fetchById cid),
          calls ++ [CovCall.update coverage_resource,
                    CovCall.fetchById cid "Coverage"])
      else some (.editFailed, calls ++ [CovCall.update coverage_resource])
    else
      match env.create coverage_resource with
      | none => some (.createFailed, calls ++ [CovCall.create coverage_resource])
      | some created_id =>
        some (.created (env.fetchById created_id),
          calls ++ [CovCall.create coverage_resource,
                    CovCall.fetchById created_id "Coverage"])
  else some (.typeError, calls)

/-- `workflow.py::add_or_edit_patient_coverages`, over a gateway environment
and a finite operator-input script. -/
def add_or_edit_patient_coverages (env : CovEnv) (stdin : List String) :
    Option (CovOutcome × List CovCall) :=
  match input_dni stdin with
  | none => none
  | some (patient_dni, s1) =>
  let patient_resources := env.fetchByIdentifier patient_dni
  let calls0 := [CovCall.fetchByIdentifier patient_dni "Patient"]
  match patient_resources.head? with
  | none => some (.patientNotFound, calls0)
  | some patient_resource =>
  if truthyS patient_resource.id = false then some (.missingPatientId, calls0)
  else
  let patient_id := patient_resource.id.getD ""
  let coverage_resources := env.fetchByBeneficiary patient_id
  let calls1 := calls0 ++ [CovCall.fetchByBeneficiary "Patient" patient_id]
  let selection : Option (Option String × List String) :=
    if coverage_resources.isEmpty then some (none, s1)
    else input_coverage_choice (coverage_resources.map (fun c => c.id)) s1
  match selection with
  | none => none
  | some (edited_coverage_id, s2) =>
  if truthyS edited_coverage_id then
    match s2 with
    | [] => none
    | delete_choice :: s3 =>
      if pyLower (pyStrip delete_choice) = "s" then
        let cid := edited_coverage_id.getD ""
        let ok := env.deleteRes cid
        some ((if ok then .deleted else .deleteFailed),
          calls1 ++ [CovCall.delete cid "Coverage"])
      else coverage_fields_and_persist env patient_id edited_coverage_id calls1 s3
  else coverage_fields_and_persist env patient_id edited_coverage_id calls1 s2

/-- A coverage-workflow gateway call that deletes. -/
def CovCall.isDelete : CovCall → Bool
  | .delete _ _ => true
  | _ => false

/- Helper lemmas about the prompt loops. -/

theorem input_dni_sound (stdin : List String) :
    ∀ d rest, input_dni stdin = some (d, rest) → valid_dni d = true := by
  induction stdin with
  | nil => intro d rest h; simp [input_dni] at h
  | cons s t ih =>
    intro d rest h
    by_cases hv : valid_dni s
    · simp only [input_dni, hv, if_true] at h
      obtain ⟨rfl, rfl⟩ := Prod.mk.injEq .. ▸ Option.some.injEq .. ▸ h
      exact hv
    · simp only [input_dni, hv, Bool.false_eq_true, if_false] at h
      exact ih d rest h

theorem input_dni_reprompts (s : String) (rest : List String)
    (hv : valid_dni s = false) : input_dni (s :: rest) = input_dni rest := by
  simp [input_dni, hv]

theorem input_date_sound (stdin : List String) :
    ∀ v rest, input_date stdin = some (some v, rest) →
      is_valid_date v = true := by
  induction stdin with
  | nil => intro v rest h; simp [input_date] at h
  | cons s t ih =>
    intro v rest h
    by_cases he : pyStrip s = ""
    · simp only [input_date, he, if_true] at h
      obtain ⟨h1, _⟩ := Prod.mk.injEq .. ▸ Option.some.injEq .. ▸ h
      exact absurd h1 (by simp)
    · by_cases hd : is_valid_date (pyStrip s)
      · simp only [input_date, he, if_false, hd, if_true] at h
        obtain ⟨h1, _⟩ := Prod.mk.injEq .. ▸ Option.some.injEq .. ▸ h
        obtain rfl := Option.some.injEq .. ▸ h1
        exact hd
      · simp only [input_date, he, if_false, hd, Bool.false_eq_true] at h
        exact ih v rest h

theorem input_date_reprompts (s : String) (rest : List String)
    (he : pyStrip s ≠ "") (hd : is_valid_date (pyStrip s) = false) :
    input_date (s :: rest) = input_date rest := by
  simp [input_date, he, hd]

theorem input_gender_sound (stdin : List String) :
    ∀ g rest, input_gender stdin = some (some g, rest) →
      g = "male" ∨ g = "female" := by
  induction stdin with
  | nil => intro g rest h; simp [input_gender] at h
  | cons s t ih =>
    intro g rest h
    by_cases hm : pyUpper (pyStrip s) = "M"
    · simp only [input_gender, hm, if_true] at h
      obtain ⟨h1, _⟩ := Prod.mk.injEq .. ▸ Option.some.injEq .. ▸ h
      exact Or.inl (Option.some.injEq .. ▸ h1).symm
    · by_cases hf : pyUpper (pyStrip s) = "F"
      · simp only [input_gender, hm, hf, if_false, if_true] at h
        obtain ⟨h1, _⟩ := Prod.mk.injEq .. ▸ Option.some.injEq .. ▸ h
        exact Or.inr (Option.some.injEq .. ▸ h1).symm
      · by_cases he : pyUpper (pyStrip s) = ""
        · simp only [input_gender, hm, hf, he, if_false, if_true] at h
          obtain ⟨h1, _⟩ := Prod.mk.injEq .. ▸ Option.some.injEq .. ▸ h
          exact absurd h1 (by simp)
        · simp only [input_gender, hm, hf, he, if_false] at h
          exact ih g rest h

theorem input_gender_reprompts (s : String) (rest : List String)
    (hm : pyUpper (pyStrip s) ≠ "M") (hf : pyUpper (pyStrip s) ≠ "F")
    (he : pyUpper (pyStrip s) ≠ "") :
    input_gender (s :: rest) = input_gender rest := by
  simp [input_gender, hm, hf, he]

theorem input_non_void_sound (stdin : List String) :
    ∀ v rest, input_non_void stdin = some (v, rest) → v ≠ "" := by
  induction stdin with
  | nil => intro v rest h; simp [input_non_void] at h
  | cons s t ih =>
    intro v rest h
    by_cases he : pyStrip s = ""
    · simp only [input_non_void, he, if_true] at h
      exact ih v rest h
    · simp only [input_non_void, he, if_false] at h
      obtain ⟨rfl, _⟩ := Prod.mk.injEq .. ▸ Option.some.injEq .. ▸ h
      exact he

theorem input_non_void_reprompts (s : String) (rest : List String)
    (he : pyStrip s = "") : input_non_void (s :: rest) = input_non_void rest := by
  simp [input_non_void, he]

theorem input_coverage_type_sound (stdin : List String) :
    ∀ p rest, input_coverage_type stdin = some (p, rest) →
      p = ("EHCPOL", "Extended healthcare policy") ∨
      p = ("PUBLICPOL", "Public healthcare policy") ∨
      p = ("DENTPRG", "Dental program") := by
  induction stdin with
  | nil => intro p rest h; simp [input_coverage_type] at h
  | cons s t ih =>
    intro p rest h
    by_cases h1 : pyStrip s = "1"
    · simp only [input_coverage_type, h1, if_true] at h
      obtain ⟨hp, _⟩ := Prod.mk.injEq .. ▸ Option.some.injEq .. ▸ h
      exact Or.inl hp.symm
    · by_cases h2 : pyStrip s = "2"
      · simp only [input_coverage_type, h1, h2, if_false, if_true] at h
        obtain ⟨hp, _⟩ := Prod.mk.injEq .. ▸ Option.some.injEq .. ▸ h
        exact Or.inr (Or.inl hp.symm)
      · by_cases h3 : pyStrip s = "3"
        · simp only [input_coverage_type, h1, h2, h3, if_false, if_true] at h
          obtain ⟨hp, _⟩ := Prod.mk.injEq .. ▸ Option.some.injEq .. ▸ h
          exact Or.inr (Or.inr hp.symm)
        · simp only [input_coverage_type, h1, h2, h3, if_false] at h
          exact ih p rest h

/-- On every path of the patient upsert operation, the gateway `create` is
never invoked: the create branch sits behind the unconditional
`existing_resources[0]` access, which fails exactly on the empty-lookup
paths that would reach it. -/
theorem create_or_edit_patient_never_creates (env : PatEnv)
    (stdin : List String) :
    ∀ o tr, create_or_edit_patient env stdin = some (o, tr) →
      tr.all (fun k => !k.isCreate) = true := by
  intro o tr h
  rw [create_or_edit_patient] at h
  rcases hdni : input_dni stdin with _ | ⟨d, s1⟩ <;> simp only [hdni] at h
  · exact absurd h (by simp)
  cases hemp : (env.fetchByIdentifier d).isEmpty
  · simp only [hemp, Bool.false_eq_true, if_false] at h
    rcases s1 with _ | ⟨c, rest⟩
    · exact absurd h (by simp)
    by_cases hc : pyLower (pyStrip c) = "s"
    · simp only [hc, if_true] at h
      rcases hh : (env.fetchByIdentifier d).head? with _ | first <;>
        simp only [hh] at h
      · obtain ⟨rfl, rfl⟩ := Prod.mk.injEq .. ▸ Option.some.injEq .. ▸ h
        rfl
      cases hid : first.id.isNone
      · simp only [hid, Bool.false_eq_true, if_false] at h
        rcases h1 : input_non_void rest with _ | ⟨fam, s3⟩ <;>
          simp only [h1] at h
        · exact absurd h (by simp)
        rcases h2 : input_non_void s3 with _ | ⟨giv, s4⟩ <;>
          simp only [h2] at h
        · exact absurd h (by simp)
        rcases h3 : input_gender s4 with _ | ⟨gen, s5⟩ <;> simp only [h3] at h
        · exact absurd h (by simp)
        rcases h4 : input_date s5 with _ | ⟨bd, s6⟩ <;> simp only [h4] at h
        · exact absurd h (by simp)
        rcases h5 : input_phone s6 with _ | ⟨ph, s7⟩
        · rw [h5] at h
          exact absurd h (by simp)
        rw [h5] at h
        dsimp only at h
        split at h
        · obtain ⟨rfl, rfl⟩ := Prod.mk.injEq .. ▸ Option.some.injEq .. ▸ h
          rfl
        · obtain ⟨rfl, rfl⟩ := Prod.mk.injEq .. ▸ Option.some.injEq .. ▸ h
          rfl
      · simp only [hid, if_true] at h
        obtain ⟨rfl, rfl⟩ := Prod.mk.injEq .. ▸ Option.some.injEq .. ▸ h
        rfl
    · simp only [hc, if_false] at h
      obtain ⟨rfl, rfl⟩ := Prod.mk.injEq .. ▸ Option.some.injEq .. ▸ h
      rfl
  · simp only [hemp, if_true] at h
    rw [List.isEmpty_iff] at hemp
    simp only [hemp, List.head?_nil] at h
    obtain ⟨rfl, rfl⟩ := Prod.mk.injEq .. ▸ Option.some.injEq .. ▸ h
    rfl

/-- The keyword-argument list of the builder call in
`add_or_edit_patient_coverages` is not accepted by
`create_coverage_resource`'s parameter list: `kind` is passed but not
declared. -/
theorem kwargs_not_accepted :
    kwargsAccepted create_coverage_resource_params
      add_or_edit_coverage_call_kwargs = false := by decide

/-- Every completed run of the coverage field-collection tail ends in the
`TypeError` of the mis-bound builder call, issuing no further gateway
call. -/
theorem coverage_fields_and_persist_typeError (env : CovEnv)
    (pid : String) (ecid : Option String) (calls : List CovCall)
    (stdin : List String) :
    ∀ o tr, coverage_fields_and_persist env pid ecid calls stdin =
        some (o, tr) →
      o = .typeError ∧ tr = calls := by
  intro o tr h
  rw [coverage_fields_and_persist] at h
  rcases h1 : input_coverage_type stdin with _ | ⟨⟨ct, ctd⟩, s1⟩ <;>
    simp only [h1] at h
  · exact absurd h (by simp)
  rcases h2 : input_coverage_status s1 with _ | ⟨st, s2⟩ <;>
    simp only [h2] at h
  · exact absurd h (by simp)
  rcases h3 : input_policy_identifier s2 with _ | ⟨pol, s3⟩ <;>
    simp only [h3] at h
  · exact absurd h (by simp)
  rcases h4 : input_subscriber_id s3 with _ | ⟨sid, s4⟩ <;>
    simp only [h4] at h
  · exact absurd h (by simp)
  rcases h5 : input_date s4 with _ | ⟨sd, s5⟩ <;> simp only [h5] at h
  · exact absurd h (by simp)
  rcases h6 : input_date s5 with _ | ⟨ed, s6⟩ <;> simp only [h6] at h
  · exact absurd h (by simp)
  simp only [kwargs_not_accepted, Bool.false_eq_true, if_false] at h
  obtain ⟨ho, htr⟩ := Prod.mk.injEq .. ▸ Option.some.injEq .. ▸ h
  exact ⟨ho.symm, htr.symm⟩

/-- On every path of the coverage operation, neither the gateway `create`
nor `update` is ever invoked: all field-collecting paths die at the
mis-bound builder call, and the delete path returns beforehand. -/
theorem add_or_edit_patient_coverages_never_upserts (env : CovEnv)
    (stdin : List String) :
    ∀ o tr, add_or_edit_patient_coverages env stdin = some (o, tr) →
      tr.all (fun k => !k.isUpsert) = true := by
  intro o tr h
  rw [add_or_edit_patient_coverages] at h
  rcases hdni : input_dni stdin with _ | ⟨d, s1⟩ <;> simp only [hdni] at h
  · exact absurd h (by simp)
  rcases hh : (env.fetchByIdentifier d).head? with _ | p <;> simp only [hh] at h
  · obtain ⟨rfl, rfl⟩ := Prod.mk.injEq .. ▸ Option.some.injEq .. ▸ h
    rfl
  cases hid : truthyS p.id
  · simp only [hid, if_true] at h
    obtain ⟨rfl, rfl⟩ := Prod.mk.injEq .. ▸ Option.some.injEq .. ▸ h
    rfl
  · simp only [hid, Bool.true_eq_false, if_false] at h
    cases hemp : (env.fetchByBeneficiary (p.id.getD "")).isEmpty <;>
      simp only [hemp, Bool.false_eq_true, if_true, if_false] at h
    · rcases hsel : input_coverage_choice
          ((env.fetchByBeneficiary (p.id.getD "")).map (fun c => c.id)) s1 with
          _ | ⟨ecid, s2⟩ <;> simp only [hsel] at h
      · exact absurd h (by simp)
      cases hec : truthyS ecid
      · simp only [hec, Bool.true_eq_false, Bool.false_eq_true, if_false] at h
        obtain ⟨-, rfl⟩ := coverage_fields_and_persist_typeError _ _ _ _ _ _ _ h
        rfl
      · simp only [hec, if_true] at h
        rcases s2 with _ | ⟨dc, s3⟩
        · exact absurd h (by simp)
        by_cases hdc : pyLower (pyStrip dc) = "s"
        · simp only [hdc, if_true] at h
          obtain ⟨rfl, rfl⟩ := Prod.mk.injEq .. ▸ Option.some.injEq .. ▸ h
          rfl
        · simp only [hdc, if_false] at h
          obtain ⟨-, rfl⟩ := coverage_fields_and_persist_typeError _ _ _ _ _ _ _ h
          rfl
    · obtain ⟨-, rfl⟩ := coverage_fields_and_persist_typeError _ _ _ _ _ _ _ h
      rfl

/-- The `.type` element of every built Coverage is a single coding whose
system is the fixed terminology identifier, whose code is the given
coverage type, and whose display is the given display when non-empty. -/
theorem create_coverage_resource_type_eq (ct bt bid st : String)
    (pid ctd sid sd ed : Option String) :
    (create_coverage_resource ct bt bid st pid ctd sid sd ed).type
      = some { coding :=
          [{ system := some "http://terminology.hl7.org/CodeSystem/v3-ActCode",
             code := some ct,
             display := if truthyS ctd then ctd else none }] } := by
  unfold create_coverage_resource
  dsimp only
  repeat' split
  all_goals rfl

/-- The `.kind` element of every built Coverage is `"insurance"`. -/
theorem create_coverage_resource_kind_eq (ct bt bid st : String)
    (pid ctd sid sd ed : Option String) :
    (create_coverage_resource ct bt bid st pid ctd sid sd ed).kind
      = "insurance" := by
  unfold create_coverage_resource
  dsimp only
  repeat' split
  all_goals rfl

/-- C1: the spec says an empty `fetchByIdentifier` result sends the patient
upsert down the create branch, invoking the gateway `create` once with a
single-identifier Patient.  In the code the unconditional
`existing_resources[0].id` access of line 154 raises `IndexError` on
exactly that path, before the create branch: the concrete scenario of the
spec (DNI `"12345678"`, no existing match) ends in the index error after
only the lookup call, and on no path of the operation is the gateway
`create` ever invoked. -/
theorem C1_create_branch_never_reached :
    create_or_edit_patient
        ⟨fun _ => [], fun _ => none, fun _ => false, fun _ => []⟩
        ["12345678"]
      = some (.indexError, [.fetchByIdentifier "12345678" "Patient"]) ∧
    ∀ (env : PatEnv) (stdin : List String) (o : PatOutcome)
        (tr : List PatCall),
      create_or_edit_patient env stdin = some (o, tr) →
        tr.all (fun k => !k.isCreate) = true :=
  ⟨rfl, fun env stdin o tr h =>
    create_or_edit_patient_never_creates env stdin o tr h⟩

/-- C2: the validity check `existing_resources[0].id is None` executes
unconditionally; when the identifier lookup returns the empty list the
index access is reached and fails, so the error arm of the embedded
indexing (`List.head?` returning `none`) is live: every run with a valid
DNI and an empty lookup result ends in the index error. -/
theorem C2_index_check_runs_on_empty_lookup (env : PatEnv) (d : String)
    (rest : List String) (hdni : valid_dni d = true)
    (hemp : env.fetchByIdentifier d = []) :
    create_or_edit_patient env (d :: rest)
      = some (.indexError, [.fetchByIdentifier d "Patient"]) := by
  rw [create_or_edit_patient]
  simp only [input_dni, hdni, if_true, hemp, List.isEmpty_nil, List.head?_nil]

/-- Witness for C2 at DNI `"1234567"` and an empty-lookup gateway. -/
theorem C2_index_check_runs_on_empty_lookup_witness :
    valid_dni "1234567" = true ∧
    create_or_edit_patient
        ⟨fun _ => [], fun _ => some "n1", fun _ => true, fun _ => []⟩
        ["1234567", "s"]
      = some (.indexError, [.fetchByIdentifier "1234567" "Patient"]) :=
  ⟨by decide,
   C2_index_check_runs_on_empty_lookup
     ⟨fun _ => [], fun _ => some "n1", fun _ => true, fun _ => []⟩
     "1234567" ["s"] (by decide) rfl⟩

/-- C3: the claim says a Patient built with a non-empty family or given
name carries a name sub-structure with those values.  In
`create_patient_resource` the `HumanName` is built but never assigned to
`patient.name`, so the Patient built from family `"Perez"` and given
`"Juan"` is the empty Patient: it carries no name at all (the all-empty
clause of the claim does hold, as the same evaluation shows every other
sub-structure absent). -/
theorem C3_name_substructure_never_attached :
    create_patient_resource (some "Perez") (some "Juan") none none none
        = emptyPatient ∧
    (create_patient_resource (some "Perez") (some "Juan") none none
        none).name = none :=
  ⟨rfl, rfl⟩

/-- C4: the builder itself always yields kind `"insurance"` and a type
coding on the fixed terminology system with codes drawn from the closed
three-pair set of `input_coverage_type`; but the workflow's invocation of
the builder passes the keyword argument `kind`, which
`create_coverage_resource` does not declare, so the call is not
well-formed (Python `TypeError`) and consequently no run of the coverage
operation ever invokes the gateway `create` or `update`. -/
theorem C4_builder_call_malformed :
    kwargsAccepted create_coverage_resource_params
        add_or_edit_coverage_call_kwargs = false ∧
    "kind" ∈ add_or_edit_coverage_call_kwargs ∧
    "kind" ∉ create_coverage_resource_params ∧
    (∀ (ct bt bid st : String) (pid ctd sid sd ed : Option String),
      (create_coverage_resource ct bt bid st pid ctd sid sd ed).kind
          = "insurance" ∧
      (create_coverage_resource ct bt bid st pid ctd sid sd ed).type
          = some { coding :=
              [{ system :=
                   some "http://terminology.hl7.org/CodeSystem/v3-ActCode",
                 code := some ct,
                 display := if truthyS ctd then ctd else none }] }) ∧
    (∀ (stdin : List String) (p : String × String) (rest : List String),
      input_coverage_type stdin = some (p, rest) →
        p = ("EHCPOL", "Extended healthcare policy") ∨
        p = ("PUBLICPOL", "Public healthcare policy") ∨
        p = ("DENTPRG", "Dental program")) ∧
    (∀ (env : CovEnv) (stdin : List String) (o : CovOutcome)
        (tr : List CovCall),
      add_or_edit_patient_coverages env stdin = some (o, tr) →
        tr.all (fun k => !k.isUpsert) = true) :=
  ⟨kwargs_not_accepted, by decide, by decide,
   fun ct bt bid st pid ctd sid sd ed =>
     ⟨create_coverage_resource_kind_eq ct bt bid st pid ctd sid sd ed,
      create_coverage_resource_type_eq ct bt bid st pid ctd sid sd ed⟩,
   fun stdin p rest h => input_coverage_type_sound stdin p rest h,
   fun env stdin o tr h =>
     add_or_edit_patient_coverages_never_upserts env stdin o tr h⟩

/-- C5 counterexample: the phone prompt does not re-prompt on malformed
input.  `"0123456"` fails the E.164-like pattern, yet the prompt consumes
only that entry and treats the field as omitted — the following (valid)
script entry is left unread. -/
theorem C5_phone_not_reprompted :
    phone_pattern_match "0123456" = false ∧
    input_phone ["0123456", "1155555555"] = some (none, ["1155555555"]) :=
  ⟨rfl, rfl⟩

/-- C5 amended: the DNI, date, gender, name and option prompts recover
malformed input by re-prompting and only ever return valid values; the
phone prompt alone reads a single entry and treats a non-matching phone as
omitted instead of re-prompting. -/
theorem C5_reprompt_everywhere_except_phone :
    (∀ (stdin : List String) (d : String) (rest : List String),
      input_dni stdin = some (d, rest) → valid_dni d = true) ∧
    (∀ (s : String) (rest : List String), valid_dni s = false →
      input_dni (s :: rest) = input_dni rest) ∧
    (∀ (stdin : List String) (v : String) (rest : List String),
      input_date stdin = some (some v, rest) → is_valid_date v = true) ∧
    (∀ (s : String) (rest : List String), pyStrip s ≠ "" →
      is_valid_date (pyStrip s) = false →
      input_date (s :: rest) = input_date rest) ∧
    (∀ (stdin : List String) (g : String) (rest : List String),
      input_gender stdin = some (some g, rest) →
        g = "male" ∨ g = "female") ∧
    (∀ (stdin : List String) (v : String) (rest : List String),
      input_non_void stdin = some (v, rest) → v ≠ "") ∧
    (∀ (s : String) (rest : List String), pyStrip s = "" →
      input_non_void (s :: rest) = input_non_void rest) ∧
    (∀ (s : String) (rest : List String),
      phone_pattern_match (pyStrip s) = false →
        input_phone (s :: rest) = some (none, rest)) :=
  ⟨fun stdin d rest h => input_dni_sound stdin d rest h,
   fun s rest hv => input_dni_reprompts s rest hv,
   fun stdin v rest h => input_date_sound stdin v rest h,
   fun s rest he hd => input_date_reprompts s rest he hd,
   fun stdin g rest h => input_gender_sound stdin g rest h,
   fun stdin v rest h => input_non_void_sound stdin v rest h,
   fun s rest he => input_non_void_reprompts s rest he,
   fun s rest hm => by
     by_cases he : pyStrip s = "" <;> simp [input_phone, he, hm]⟩

/-- C6: when the identifier lookup finds at least one match and the
operator declines the edit confirmation, the patient upsert aborts having
issued only the lookup: its trace is the single `fetchByIdentifier` call,
which is not a mutation, so no create, update or delete reaches the
server. -/
theorem C6_decline_edit_aborts_without_mutation (env : PatEnv) (d c : String)
    (rest : List String) (hdni : valid_dni d = true)
    (hne : (env.fetchByIdentifier d).isEmpty = false)
    (hc : pyLower (pyStrip c) ≠ "s") :
    create_or_edit_patient env (d :: c :: rest)
      = some (.cancelled, [.fetchByIdentifier d "Patient"]) ∧
    ([PatCall.fetchByIdentifier d "Patient"].all fun k => !k.isMutation)
      = true := by
  constructor
  · rw [create_or_edit_patient]
    simp only [input_dni, hdni, if_true, hne, Bool.false_eq_true, if_false, hc]
  · rfl

/-- Witness for C6: one existing patient, operator answers `n`. -/
theorem C6_decline_edit_aborts_without_mutation_witness :
    create_or_edit_patient
        ⟨fun _ => [{ emptyPatient with id := some "p1" }], fun _ => none,
         fun _ => false, fun _ => []⟩
        ["33445566", "n"]
      = some (.cancelled, [.fetchByIdentifier "33445566" "Patient"]) ∧
    ([PatCall.fetchByIdentifier "33445566" "Patient"].all
        fun k => !k.isMutation) = true :=
  C6_decline_edit_aborts_without_mutation
    ⟨fun _ => [{ emptyPatient with id := some "p1" }], fun _ => none,
     fun _ => false, fun _ => []⟩
    "33445566" "n" [] (by decide) rfl (by decide)

/-- C7: when an edit target was selected (option `1`) and the operator
confirms deletion, the coverage operation issues exactly one delete call
for the selected Coverage and terminates: the trace is the two lookups
followed by the single delete, the outcome reports success or failure of
that delete with no retry, and no create or update occurs. -/
theorem C7_confirmed_delete_is_terminal (env : CovEnv) (d : String)
    (p : PatientR) (cov : CoverageR) (fid cid ds : String)
    (rest : List String)
    (hdni : valid_dni d = true)
    (hfetch : env.fetchByIdentifier d = [p])
    (hpid : p.id = some fid) (hfid : fid ≠ "")
    (hben : env.fetchByBeneficiary fid = [cov])
    (hcid : cov.id = some cid) (hcne : cid ≠ "")
    (hds : pyLower (pyStrip ds) = "s") :
    add_or_edit_patient_coverages env (d :: "1" :: ds :: rest)
      = some ((if env.deleteRes cid then .deleted else .deleteFailed),
          [.fetchByIdentifier d "Patient", .fetchByBeneficiary "Patient" fid,
           .delete cid "Coverage"]) ∧
    (([CovCall.fetchByIdentifier d "Patient",
       CovCall.fetchByBeneficiary "Patient" fid,
       CovCall.delete cid "Coverage"].countP fun k => k.isDelete) = 1) ∧
    (([CovCall.fetchByIdentifier d "Patient",
       CovCall.fetchByBeneficiary "Patient" fid,
       CovCall.delete cid "Coverage"].all fun k => !k.isUpsert) = true) := by
  refine ⟨?_, rfl, rfl⟩
  have echoice : input_coverage_choice [some cid] ("1" :: ds :: rest)
      = some (some cid, ds :: rest) := rfl
  rw [add_or_edit_patient_coverages]
  simp only [input_dni, hdni, if_true, hfetch, List.head?_cons, hpid,
    truthyS, hfid, if_false, ite_false, ite_true, Option.getD, hben,
    List.isEmpty_cons, List.map_cons, List.map_nil, hcid, echoice, hds, hcne,
    Bool.true_eq_false, Bool.false_eq_true]
  rfl

/-- Witness for C7: one existing coverage, option `1`, delete confirmed
with `S`, deletion reported successful. -/
theorem C7_confirmed_delete_is_terminal_witness :
    add_or_edit_patient_coverages
        ⟨fun _ => [{ emptyPatient with id := some "p9" }],
         fun _ => [{ id := some "c9", status := "active",
                     kind := "insurance", type := none,
                     beneficiary := { reference := some "Patient/p9" },
                     identifier := none, subscriberId := none,
                     period := none }],
         fun _ => true, fun _ => none, fun _ => false, fun _ => []⟩
        ["30111222", "1", "S"]
      = some ((if (fun (_ : String) => true) "c9" then .deleted
               else .deleteFailed),
          [.fetchByIdentifier "30111222" "Patient",
           .fetchByBeneficiary "Patient" "p9", .delete "c9" "Coverage"]) ∧
    (([CovCall.fetchByIdentifier "30111222" "Patient",
       CovCall.fetchByBeneficiary "Patient" "p9",
       CovCall.delete "c9" "Coverage"].countP fun k => k.isDelete) = 1) ∧
    (([CovCall.fetchByIdentifier "30111222" "Patient",
       CovCall.fetchByBeneficiary "Patient" "p9",
       CovCall.delete "c9" "Coverage"].all fun k => !k.isUpsert) = true) :=
  C7_confirmed_delete_is_terminal
    ⟨fun _ => [{ emptyPatient with id := some "p9" }],
     fun _ => [{ id := some "c9", status := "active", kind := "insurance",
                 type := none,
                 beneficiary := { reference := some "Patient/p9" },
                 identifier := none, subscriberId := none, period := none }],
     fun _ => true, fun _ => none, fun _ => false, fun _ => []⟩
    "30111222" { emptyPatient with id := some "p9" }
    { id := some "c9", status := "active", kind := "insurance", type := none,
      beneficiary := { reference := some "Patient/p9" }, identifier := none,
      subscriberId := none, period := none }
    "p9" "c9" "S" [] (by decide) rfl rfl (by decide) rfl rfl (by decide)
    (by decide)

/-- C8: the beneficiary Coverage listing never returns more entries than it
received; an entry whose `kind` is missing is parsed with `kind` defaulted
to `"insurance"`; and an entry that still fails to parse is dropped from
the listing without affecting the other entries. -/
theorem C8_coverage_listing_robustness (st : Nat)
    (entries : List RawResource) :
    ((get_coverage_by_beneficiary ⟨st, entries⟩).length ≤ entries.length) ∧
    (∀ e c, e.kind = none → process_coverage_entry e = some c →
      c.kind = "insurance") ∧
    (∀ pre post e, process_coverage_entry e = none →
      get_coverage_by_beneficiary ⟨st, pre ++ e :: post⟩
        = get_coverage_by_beneficiary ⟨st, pre ++ post⟩) := by
  refine ⟨?_, ?_, ?_⟩
  · unfold get_coverage_by_beneficiary
    split
    · exact List.length_filterMap_le _ _
    · simp
  · intro e c hk h
    rcases e with ⟨eid, ekind, estatus, eben⟩
    simp only at hk
    subst hk
    rcases estatus with _ | s <;> rcases eben with _ | b <;>
      simp [process_coverage_entry, coverage_model_validate] at h
    rw [← h]
  · intro pre post e he
    unfold get_coverage_by_beneficiary
    split
    · simp [List.filterMap_append, he]
    · rfl

/-- C9 counterexample: the claimed "success iff status 200 or 201" fails:
a create answered with status 200 is reported as failure, and an update or
delete answered with status 201 is reported as failure, although both
statuses belong to the claimed success set. -/
theorem C9_success_not_iff_200_or_201 :
    send_resource_to_hapi_fhir ⟨200, [("id", "abc")]⟩ = none ∧
    edit_resource_in_hapi_fhir ⟨201, []⟩ = false ∧
    delete_resource_from_hapi_fhir ⟨201, []⟩ = false :=
  ⟨rfl, rfl, rfl⟩

/-- C9 amended: each gateway call has its own success status — create
succeeds (returns the created id) exactly on 201, update and delete
succeed exactly on 200, and the three fetches return non-empty data only
on 200; every other status is failure regardless of the response body. -/
theorem C9_per_call_status_contract (r : HttpResponse) (s : SearchResponse) :
    ((send_resource_to_hapi_fhir r).isSome ↔
      (r.status = 201 ∧ (r.body.lookup "id").isSome)) ∧
    (edit_resource_in_hapi_fhir r = true ↔ r.status = 200) ∧
    (delete_resource_from_hapi_fhir r = true ↔ r.status = 200) ∧
    (r.status ≠ 200 → get_resource_from_hapi_fhir r = []) ∧
    (s.status ≠ 200 → get_resource_by_identifier s = []) ∧
    (s.status ≠ 200 → get_coverage_by_beneficiary s = []) := by
  refine ⟨?_, ?_, ?_, ?_, ?_, ?_⟩
  · unfold send_resource_to_hapi_fhir
    split <;> simp_all
  · unfold edit_resource_in_hapi_fhir
    simp
  · unfold delete_resource_from_hapi_fhir
    simp
  · intro h
    unfold get_resource_from_hapi_fhir
    simp [h]
  · intro h
    unfold get_resource_by_identifier
    simp [h]
  · intro h
    unfold get_coverage_by_beneficiary
    simp [h]

/-- C10: the fetch-by-id call never errors on a non-success response — any
status other than 200 yields the empty mapping; and when the confirmation
re-fetch after a successful update finds nothing, the patient upsert still
reports the mutation as successful (`edited`) with an empty detail list. -/
theorem C10_refetch_empty_still_success :
    (∀ r : HttpResponse, r.status ≠ 200 →
      get_resource_from_hapi_fhir r = []) ∧
    (∀ (env : PatEnv) (d conf fam giv g b ph : String) (p : PatientR)
        (fid : String) (rest : List String),
      valid_dni d = true →
      env.fetchByIdentifier d = [p] →
      p.id = some fid →
      pyLower (pyStrip conf) = "s" →
      pyStrip fam ≠ "" → pyStrip giv ≠ "" →
      pyUpper (pyStrip g) = "" → pyStrip b = "" → pyStrip ph = "" →
      (∀ q, env.edit q = true) →
      (∀ i, env.fetchById i = []) →
      ∃ pr, create_or_edit_patient env
          (d :: conf :: fam :: giv :: g :: b :: ph :: rest)
        = some (.edited [], [.fetchByIdentifier d "Patient", .update pr,
                             .fetchById fid "Patient"])) := by
  constructor
  · intro r h
    unfold get_resource_from_hapi_fhir
    simp [h]
  · intro env d conf fam giv g b ph p fid rest hdni hfetch hpid hconf hfam
      hgiv hg hb hph hedit hget
    refine ⟨{ create_patient_resource (some (pyStrip fam))
        (some (pyStrip giv)) none none none with
        identifier := some [{ system := some "http://www.renaper.gob.ar/dni",
                              value := some d }],
        id := some fid }, ?_⟩
    rw [create_or_edit_patient]
    have egender : input_gender (g :: b :: ph :: rest)
        = some (none, b :: ph :: rest) := by
      simp [input_gender, hg]
    have edate : input_date (b :: ph :: rest) = some (none, ph :: rest) := by
      simp [input_date, hb]
    have ephone : input_phone (ph :: rest) = some (none, rest) := by
      simp [input_phone, hph]
    simp only [input_dni, hdni, if_true, hfetch, List.isEmpty_cons,
      Bool.false_eq_true, if_false, hconf, List.head?_cons, hpid,
      Option.isNone_some, input_non_void, hfam, hgiv, ite_false, ite_true,
      egender, edate, ephone, hedit, hget, Option.getD]
    rfl

end Infomed
